import Mathlib

/-!
Verification of the SessionCacheGate of playwright-agent-mcp-starter.

Shallow embedding of the auth-state cache logic in
`tests/auth.setup.ts` (the `isAuthStateValid` function and the
the authenticate setup step bootstrap step) of the repository.

The JavaScript code under scrutiny is:

```js
function isAuthStateValid() {
  const fullPath = path.resolve(AUTH_STATE_PATH);
  if (!fs.existsSync(fullPath)) { return false; }
  try {
    const raw = fs.readFileSync(fullPath, "utf-8");
    const state = JSON.parse(raw);
    if (!state.cookies || state.cookies.length === 0) { return false; }
    const now = Date.now() / 1000;
    const hasExpired = state.cookies.some(
      (cookie) => cookie.expires > 0 && cookie.expires < now);
    return !hasExpired;
  } catch { return false; }
}

setup("authenticate", async ({ page }) => {
  if (isAuthStateValid()) { return; }
  await page.goto("/");
  await page.context().storageState({ path: AUTH_STATE_PATH });
});
```

We embed the JSON document the file may contain, the JavaScript
dynamic semantics of the property accesses, truthiness tests and
numeric comparisons the function performs (a thrown `TypeError` is an
`Except.error`, caught by the surrounding `try`), and the bootstrap
orchestration around it.  Timestamps and JSON numbers are modelled as
rationals: `Date.now() / 1000` is a fractional number of seconds, and
only order comparisons on it occur in the code.
-/

/-- A JSON document, as produced by a successful `JSON.parse`. -/
inductive Json where
  | null
  | bool (b : Bool)
  | num (q : ℚ)
  | str (s : String)
  | arr (elems : List Json)
  | obj (fields : List (String × Json))

/-- The result of a JavaScript expression: either `undefined` or a JSON value.
(`JSON.parse` output contains no `undefined` and no functions.) -/
inductive JsVal where
  | undefined
  | val (j : Json)

/-- Field lookup in a JSON object: first binding wins (parsed objects
have unique keys). -/
def jsonLookup : List (String × Json) → String → Option Json
  | [], _ => none
  | (k, v) :: rest, key => if k = key then some v else jsonLookup rest key

/-- JavaScript property access `receiver.key` on a parsed JSON value.
Accessing a property of `null` throws a `TypeError` (`Except.error`);
objects look the key up; strings and arrays expose `length`; any other
access yields `undefined`. -/
def jsGetField : Json → String → Except Unit JsVal
  | .null, _ => .error ()
  | .obj fields, key =>
      match jsonLookup fields key with
      | some v => .ok (.val v)
      | none => .ok .undefined
  | .str s, key => if key = "length" then .ok (.val (.num s.length)) else .ok .undefined
  | .arr xs, key => if key = "length" then .ok (.val (.num xs.length)) else .ok .undefined
  | _, _ => .ok .undefined

/-- Property access on an expression result; accessing a property of
`undefined` throws. -/
def jsGetFieldV : JsVal → String → Except Unit JsVal
  | .undefined, _ => .error ()
  | .val j, key => jsGetField j key

/-- JavaScript truthiness of a value (`!x` negates this). -/
def jsTruthy : JsVal → Bool
  | .undefined => false
  | .val .null => false
  | .val (.bool b) => b
  | .val (.num q) => q ≠ 0
  | .val (.str s) => s ≠ ""
  | .val (.arr _) => true
  | .val (.obj _) => true

/-- JavaScript strict equality `x === 0`, as used in
`state.cookies.length === 0`: true only for the number `0`,
never across types. -/
def jsStrictEqZero : JsVal → Bool
  | .val (.num q) => q = 0
  | _ => false

/-- Numeric value of a list of decimal digit characters. -/
def natOfDigits (cs : List Char) : ℕ :=
  cs.foldl (fun a c => a * 10 + (c.toNat - 48)) 0

/-- The `ToNumber` conversion on a trimmed, unsigned string: the decimal-literal
fragment (`"12"`, `"12.5"`, `".5"`, `"12."`); anything else is NaN
(`none`).  (The exotic forms — exponents, hex, `"Infinity"` — never
appear in a `storageState` file and are abstracted to NaN.) -/
def parseUnsignedDec (cs : List Char) : Option ℚ :=
  let intPart := cs.takeWhile Char.isDigit
  let rest := cs.dropWhile Char.isDigit
  match rest with
  | [] => if intPart.isEmpty then none else some (natOfDigits intPart)
  | '.' :: frac =>
      if frac.all Char.isDigit && !(intPart.isEmpty && frac.isEmpty) then
        some ((natOfDigits intPart : ℚ) + (natOfDigits frac : ℚ) / (10 ^ frac.length))
      else none
  | _ => none

/-- JavaScript `ToNumber` on a string: trimmed empty string is `0`,
otherwise an optionally signed decimal literal; NaN is `none`. -/
def strToNumber (s : String) : Option ℚ :=
  let t := s.trim
  if t = "" then some 0
  else
    match t.toList with
    | '-' :: cs => (parseUnsignedDec cs).map (fun q => -q)
    | '+' :: cs => parseUnsignedDec cs
    | cs => parseUnsignedDec cs

/-- JavaScript `ToNumber` of a value, `none` meaning NaN.  Objects
convert via `"[object Object]"` to NaN; an array converts via its
joined string form, modelled here as NaN (no theorem below exercises an
array in numeric position). -/
def jsToNumber : JsVal → Option ℚ
  | .undefined => none
  | .val .null => some 0
  | .val (.bool b) => some (if b then 1 else 0)
  | .val (.num q) => some q
  | .val (.str s) => strToNumber s
  | .val (.arr _) => none
  | .val (.obj _) => none

/-- The JavaScript relational comparison `a < b` at the two call sites
(`cookie.expires > 0` is `0 < cookie.expires`); one operand is always a
number there, so the comparison is numeric, and any NaN makes it
false. -/
def jsNumLt (a b : JsVal) : Bool :=
  match jsToNumber a, jsToNumber b with
  | some x, some y => x < y
  | _, _ => false

/-- The `some` callback `cookie.expires > 0 && cookie.expires < now`
applied to one array element; property access on a `null` element
throws. -/
def cookieExpiredJs (now : ℚ) (c : Json) : Except Unit Bool := do
  let e ← jsGetField c "expires"
  pure (jsNumLt (.val (.num 0)) e && jsNumLt e (.val (.num now)))

/-- The `Array.prototype.some` loop: left to right, short-circuiting, propagating
a thrown exception. -/
def someExpired (now : ℚ) : List Json → Except Unit Bool
  | [] => .ok false
  | c :: rest => do
      let b ← cookieExpiredJs now c
      if b then pure true else someExpired now rest

/-- The body of the `try` block after `JSON.parse` succeeded with
document `state`:

```js
if (!state.cookies || state.cookies.length === 0) { return false; }
const hasExpired = state.cookies.some(
  (cookie) => cookie.expires > 0 && cookie.expires < now);
return !hasExpired;
```

Calling `.some` on a truthy non-array (it is not a function) throws. -/
def checkStateJson (now : ℚ) (state : Json) : Except Unit Bool := do
  let cookies ← jsGetField state "cookies"
  if !jsTruthy cookies then pure false
  else do
    let len ← jsGetFieldV cookies "length"
    if jsStrictEqZero len then pure false
    else
      match cookies with
      | .val (.arr xs) => do
          let hasExpired ← someExpired now xs
          pure !hasExpired
      | _ => .error ()

/-- What may sit at the state path: no file at all, bytes that
`JSON.parse` rejects, or bytes that parse to a JSON document.  (We
embed the outcome of `JSON.parse`, not the character-level parser.) -/
inductive CacheFile where
  | absent
  | malformed
  | json (state : Json)

/-- The function `isAuthStateValid` from `tests/auth.setup.ts`: `false` when the
file is absent, `false` when `JSON.parse` throws, and the `try` body
otherwise, the `catch` turning any thrown error into `false`. -/
def isAuthStateValid (now : ℚ) (file : CacheFile) : Bool :=
  match file with
  | .absent => false
  | .malformed => false
  | .json state =>
      match checkStateJson now state with
      | .ok b => b
      | .error _ => false

/-! The SessionState data model.

A well-shaped persisted state, as `storageState` writes it: cookies
with `name`, `value`, `domain`, `path` and a numeric `expires`
(possibly absent), plus per-origin storage snapshots that the gate
never interprets. -/

/-- One cookie record of a SessionState.  `expires = none` models an
absent field (JavaScript `undefined`); Playwright writes `-1` for a
session cookie with no fixed expiry. -/
structure Cookie where
  name : String
  value : String
  domain : String
  path : String
  expires : Option ℚ
deriving DecidableEq, Repr

/-- One origin's storage snapshot: the origin and its key/value
entries.  Opaque to the gate. -/
structure OriginState where
  origin : String
  localStorage : List (String × String)
deriving DecidableEq, Repr

/-- A successfully parsed, well-shaped SessionState. -/
structure SessionState where
  cookies : List Cookie
  origins : List OriginState
deriving DecidableEq, Repr

/-- Whether one well-shaped cookie trips the expiry test
`cookie.expires > 0 && cookie.expires < now`: an absent `expires` is
`undefined`, whose comparisons are false. -/
def Cookie.expired (now : ℚ) (c : Cookie) : Bool :=
  match c.expires with
  | none => false
  | some e => decide (0 < e) && decide (e < now)

/-- The gate's decision on a well-shaped SessionState: a non-empty
cookie collection none of whose cookies has expired. -/
def isValidState (now : ℚ) (s : SessionState) : Bool :=
  !s.cookies.isEmpty && !s.cookies.any (Cookie.expired now)

/-- Serialization of one cookie into the JSON document `storageState`
writes; an absent `expires` produces no field. -/
def Cookie.toJson (c : Cookie) : Json :=
  .obj ([("name", .str c.name), ("value", .str c.value),
         ("domain", .str c.domain), ("path", .str c.path)] ++
        (match c.expires with
         | none => []
         | some e => [("expires", .num e)]))

/-- Serialization of one origin snapshot. -/
def OriginState.toJson (o : OriginState) : Json :=
  .obj [("origin", .str o.origin),
        ("localStorage",
         .arr (o.localStorage.map (fun kv =>
           .obj [("name", .str kv.1), ("value", .str kv.2)])))]

/-- Serialization of a SessionState into the JSON document at the
state path. -/
def SessionState.toJson (s : SessionState) : Json :=
  .obj [("cookies", .arr (s.cookies.map Cookie.toJson)),
        ("origins", .arr (s.origins.map OriginState.toJson))]

/-- The cache file holding a serialized SessionState. -/
def SessionState.toFile (s : SessionState) : CacheFile :=
  .json s.toJson

/-! The bootstrap step.

the authenticate setup step consults the gate; on a cache-hit it returns at
once, otherwise it runs the login flow and captures the state. -/

/-- A live authenticated browser context, by the cookies and storage it
holds. -/
structure BrowserContext where
  cookies : List Cookie
  origins : List OriginState

/-- Modelled from the spec: `capture` — the library call
`page.context().storageState({ path })`, whose implementation is not in
this repository — "serializes the context's current cookies and storage
into SessionState and writes it to `statePath`".  This is the
SessionState it serializes. -/
def capture (ctx : BrowserContext) : SessionState :=
  ⟨ctx.cookies, ctx.origins⟩

/-- The the authenticate setup step body: if `isAuthStateValid()` it
returns at once; otherwise it runs the login flow and awaits the
`storageState` write, with no `try`/`catch` around it.  The
filesystem's disposition toward that write is the input `writeResult`
(`.error` when the write would fail, modelled from the spec); the
result is the final cache file and how many times the step wrote it, or
the propagated write error. -/
def authenticateSetup (now : ℚ) (file : CacheFile) (ctx : BrowserContext)
    (writeResult : Except String Unit) : Except String (CacheFile × ℕ) :=
  if isAuthStateValid now file then .ok (file, 0)
  else
    match writeResult with
    | .error e => .error e
    | .ok () => .ok ((capture ctx).toFile, 1)

/-! Sample data for concrete witnesses. -/

/-- A cookie with a given `expires` field. -/
def mkCookie (e : Option ℚ) : Cookie :=
  ⟨"sid", "abc123", "example.com", "/", e⟩

/-- A state whose cookies have the given `expires` fields, with one
origin snapshot. -/
def mkState (es : List (Option ℚ)) : SessionState :=
  ⟨es.map mkCookie, [⟨"https://example.com", [("auth_token", "tok")]⟩]⟩

/-! Bridge: the JavaScript check agrees with the pure model on every
well-shaped SessionState. -/

theorem exceptBind_ok {α β ε : Type} (a : α) (f : α → Except ε β) :
    (Except.ok a >>= f : Except ε β) = f a := rfl

theorem cookieExpiredJs_toJson (now : ℚ) (c : Cookie) :
    cookieExpiredJs now c.toJson = .ok (c.expired now) := by
  rcases c with ⟨n, v, d, p, e⟩
  cases e with
  | none => rfl
  | some q => rfl

theorem someExpired_map (now : ℚ) (cs : List Cookie) :
    someExpired now (cs.map Cookie.toJson) = .ok (cs.any (Cookie.expired now)) := by
  induction cs with
  | nil => rfl
  | cons c rest ih =>
      rw [List.map_cons, someExpired, cookieExpiredJs_toJson]
      cases hc : Cookie.expired now c
      · simp [exceptBind_ok, List.any_cons, hc, ih]
      · simp [exceptBind_ok, List.any_cons, hc]
        rfl

theorem checkStateJson_toJson (now : ℚ) (s : SessionState) :
    checkStateJson now s.toJson = .ok (isValidState now s) := by
  rcases s with ⟨cs, os⟩
  cases cs with
  | nil => rfl
  | cons c rest =>
      show (if jsStrictEqZero (.val (.num (((c :: rest).map Cookie.toJson).length : ℚ)))
            then Except.ok false
            else do
              let hasExpired ← someExpired now ((c :: rest).map Cookie.toJson)
              pure !hasExpired)
          = Except.ok (isValidState now ⟨c :: rest, os⟩)
      rw [if_neg (by simp [jsStrictEqZero]; positivity)]
      rw [someExpired_map]
      rfl

theorem isAuthStateValid_toFile (now : ℚ) (s : SessionState) :
    isAuthStateValid now s.toFile = isValidState now s := by
  rw [SessionState.toFile, isAuthStateValid, checkStateJson_toJson]

theorem Cookie.expired_eq_false (now : ℚ) (c : Cookie) :
    Cookie.expired now c = false ↔ ∀ e : ℚ, c.expires = some e → 0 < e → now ≤ e := by
  rcases c with ⟨n, v, d, p, e⟩
  cases e with
  | none => simp [Cookie.expired]
  | some q => simp [Cookie.expired, not_lt, and_imp]

theorem isValidState_true_iff (now : ℚ) (s : SessionState) :
    isValidState now s = true ↔
      (s.cookies ≠ [] ∧
       ∀ c ∈ s.cookies, ∀ e : ℚ, c.expires = some e → 0 < e → now ≤ e) := by
  rw [isValidState, Bool.and_eq_true, Bool.not_eq_true', Bool.not_eq_true',
    List.any_eq_false, List.isEmpty_eq_false]
  constructor
  · rintro ⟨h1, h2⟩
    exact ⟨h1, fun c hc => (Cookie.expired_eq_false now c).1 (by simpa using h2 c hc)⟩
  · rintro ⟨h1, h2⟩
    exact ⟨h1, fun c hc => by simpa using (Cookie.expired_eq_false now c).2 (h2 c hc)⟩

/-! The claims. -/

/-- C1, counterexample: the claimed "if and only if ... strictly later"
fails at the boundary.  A state with one cookie whose `expires` equals
the check instant `5` exactly is judged valid by the code, yet that
cookie's finite expiry is not strictly later than the check instant. -/
theorem C1_strict_expiry_cex :
    isAuthStateValid 5 (SessionState.toFile ⟨[mkCookie (some 5)], []⟩) = true ∧
    ¬ (∀ c ∈ (SessionState.mk [mkCookie (some 5)] []).cookies,
         ∀ e : ℚ, c.expires = some e → 0 < e → (5 : ℚ) < e) := by
  constructor
  · decide
  · intro h
    have h5 := h (mkCookie (some 5)) (by simp) 5 rfl (by norm_num)
    exact absurd h5 (by norm_num)

/-- C1, amended: for every successfully parsed SessionState with a
non-empty cookie collection and every check instant, `isAuthStateValid`
returns true if and only if every cookie with a positive `expires` (the
code's no-fixed-expiry sentinel being every `expires ≤ 0` or absent)
has an expiry instant **no earlier than** the check instant; sentinel
cookies never make the result false. -/
theorem C1_validity_iff (now : ℚ) (s : SessionState) (h : s.cookies ≠ []) :
    isAuthStateValid now s.toFile = true ↔
      ∀ c ∈ s.cookies, ∀ e : ℚ, c.expires = some e → 0 < e → now ≤ e := by
  rw [isAuthStateValid_toFile, isValidState_true_iff]
  exact and_iff_right h

/-- Witness for C1_validity_iff at check instant `3` on a state with a
future-expiring cookie and a no-expiry cookie. -/
theorem C1_validity_iff_witness :
    (mkState [some 10, none]).cookies ≠ [] ∧
      (isAuthStateValid 3 (mkState [some 10, none]).toFile = true ↔
        ∀ c ∈ (mkState [some 10, none]).cookies,
          ∀ e : ℚ, c.expires = some e → 0 < e → (3 : ℚ) ≤ e) :=
  ⟨by decide, C1_validity_iff 3 (mkState [some 10, none]) (by decide)⟩

/-- C2, counterexample: a JSON document that is not the serialization
of any SessionState — its one cookie entry is the bare string
`"not-a-cookie"` — is nonetheless judged **valid**: the string's
`expires` property is `undefined`, whose comparisons are false, so the
element never counts as expired. -/
theorem C2_shape_cex :
    (¬ ∃ s : SessionState,
        s.toJson = .obj [("cookies", .arr [.str "not-a-cookie"]), ("origins", .arr [])]) ∧
    isAuthStateValid 100
      (.json (.obj [("cookies", .arr [.str "not-a-cookie"]), ("origins", .arr [])])) = true := by
  constructor
  · rintro ⟨⟨cs, os⟩, hs⟩
    rw [SessionState.toJson] at hs
    injection hs with hfields
    injection hfields with hcookies hrest
    injection hcookies with hkey hval
    injection hval with harr
    cases cs with
    | nil => exact absurd harr (by simp)
    | cons c cs' =>
        rw [List.map_cons] at harr
        injection harr with hhead htail
        rw [Cookie.toJson] at hhead
        exact Json.noConfusion hhead
  · decide

/-- C2, amended: an absent file and content rejected by `JSON.parse`
yield `false`, and any parsed document on which the check throws (e.g.
the document `null`, or a truthy non-array `cookies`) also yields
`false` through the `catch`; no error reaches the caller.  (However, a
document whose `cookies` is a non-empty array of non-cookie-shaped
values can still be judged valid — see the counterexample.) -/
theorem C2_parse_failure_false (now : ℚ) :
    isAuthStateValid now .absent = false ∧
    isAuthStateValid now .malformed = false ∧
    ∀ (j : Json) (e : Unit), checkStateJson now j = .error e →
      isAuthStateValid now (.json j) = false := by
  refine ⟨rfl, rfl, fun j e h => ?_⟩
  rw [isAuthStateValid, h]

/-- Witness for C2_parse_failure_false: the parsed document `null`
throws on `state.cookies` and is judged invalid. -/
theorem C2_parse_failure_false_witness :
    checkStateJson 7 .null = .error () ∧
    isAuthStateValid 7 (.json .null) = false :=
  ⟨rfl, (C2_parse_failure_false 7).2.2 .null () rfl⟩

/-- C3: a successfully parsed SessionState with zero cookies is invalid
at every check instant. -/
theorem C3_empty_cookies_invalid (now : ℚ) (s : SessionState) (h : s.cookies = []) :
    isAuthStateValid now s.toFile = false := by
  rw [isAuthStateValid_toFile, isValidState, h]
  rfl

/-- Witness for C3_empty_cookies_invalid: the freshly-placeholder file
`{"cookies": [], "origins": [...]}` at check instant `5`. -/
theorem C3_empty_cookies_invalid_witness :
    isAuthStateValid 5 (SessionState.toFile ⟨[], [⟨"https://example.com", []⟩]⟩) = false :=
  C3_empty_cookies_invalid 5 ⟨[], [⟨"https://example.com", []⟩]⟩ rfl

/-- C4: a cookie whose finite expiry equals the check instant exactly
does not invalidate the state — only `expires < now` invalidates — so a
parsed non-empty state all of whose cookies expire no earlier than the
check instant is judged valid. -/
theorem C4_boundary_expiry_valid (now : ℚ) (s : SessionState) (h : s.cookies ≠ [])
    (hexp : ∀ c ∈ s.cookies, ∀ e : ℚ, c.expires = some e → now ≤ e) :
    isAuthStateValid now s.toFile = true := by
  rw [isAuthStateValid_toFile, isValidState_true_iff]
  exact ⟨h, fun c hc e he _ => hexp c hc e he⟩

/-- Witness for C4_boundary_expiry_valid: a cookie expiring exactly at
the check instant `7` next to one expiring later. -/
theorem C4_boundary_expiry_valid_witness :
    isAuthStateValid 7 (mkState [some 7, some 9]).toFile = true :=
  C4_boundary_expiry_valid 7 (mkState [some 7, some 9]) (by decide)
    (by
      intro c hc e he
      simp only [mkState, mkCookie, List.map_cons, List.map_nil, List.mem_cons,
        List.not_mem_nil, or_false] at hc
      rcases hc with h1 | h1 <;> subst h1 <;> simp at he
      · rw [← he]
      · rw [← he]; norm_num)

/-- C5: a successfully parsed, non-empty SessionState in which every
cookie's `expires` is strictly in the future relative to the check
instant is judged valid. -/
theorem C5_all_future_valid (now : ℚ) (s : SessionState) (h : s.cookies ≠ [])
    (hfut : ∀ c ∈ s.cookies, ∀ e : ℚ, c.expires = some e → now < e) :
    isAuthStateValid now s.toFile = true := by
  rw [isAuthStateValid_toFile, isValidState_true_iff]
  exact ⟨h, fun c hc e he _ => le_of_lt (hfut c hc e he)⟩

/-- Witness for C5_all_future_valid: two cookies expiring well after
the check instant `3`. -/
theorem C5_all_future_valid_witness :
    isAuthStateValid 3 (mkState [some 1000, some 2000]).toFile = true :=
  C5_all_future_valid 3 (mkState [some 1000, some 2000]) (by decide)
    (by
      intro c hc e he
      simp only [mkState, mkCookie, List.map_cons, List.map_nil, List.mem_cons,
        List.not_mem_nil, or_false] at hc
      rcases hc with h1 | h1 <;> subst h1 <;> simp at he
      · rw [← he]; norm_num
      · rw [← he]; norm_num)

/-- C6, counterexample: the claimed round-trip hypothesis — *at least
one* persisted cookie with no expiry or a future expiry — is not
enough.  A context holding a no-expiry session cookie (`expires = -1`)
next to an already-expired cookie (`expires = 1`, check instant `2`)
captures to a state the gate judges **invalid**, because `isValid`
demands that *every* positively-expiring cookie be unexpired. -/
theorem C6_roundtrip_cex :
    (∃ c ∈ (capture ⟨[mkCookie (some (-1)), mkCookie (some 1)], []⟩).cookies,
        c.expires = some (-1)) ∧
    isAuthStateValid 2
      (capture ⟨[mkCookie (some (-1)), mkCookie (some 1)], []⟩).toFile = false := by
  decide

/-- C6, amended: `capture` followed immediately by `isValid` on the
same path yields `true`, given that at least one cookie is persisted
and **every** persisted cookie has no fixed expiry (`expires` absent or
`≤ 0`) or an expiry no earlier than the check instant. -/
theorem C6_roundtrip (now : ℚ) (ctx : BrowserContext)
    (h : (capture ctx).cookies ≠ [])
    (hexp : ∀ c ∈ (capture ctx).cookies, ∀ e : ℚ, c.expires = some e → e ≤ 0 ∨ now ≤ e) :
    isAuthStateValid now (capture ctx).toFile = true := by
  rw [isAuthStateValid_toFile, isValidState_true_iff]
  refine ⟨h, fun c hc e he hpos => ?_⟩
  rcases hexp c hc e he with h1 | h1
  · exact absurd hpos (not_lt.2 h1)
  · exact h1

/-- Witness for C6_roundtrip: a context with a no-expiry session cookie
and a far-future cookie, checked at instant `2`. -/
theorem C6_roundtrip_witness :
    isAuthStateValid 2
      (capture ⟨[mkCookie (some (-1)), mkCookie (some 500)], []⟩).toFile = true :=
  C6_roundtrip 2 ⟨[mkCookie (some (-1)), mkCookie (some 500)], []⟩ (by decide)
    (by
      intro c hc e he
      simp only [capture, mkCookie, List.mem_cons, List.not_mem_nil, or_false] at hc
      rcases hc with h1 | h1 <;> subst h1 <;> simp at he
      · exact Or.inl (by rw [← he]; norm_num)
      · exact Or.inr (by rw [← he]; norm_num))

/-- C7: when the gate reports valid, the bootstrap step does nothing
further — the session file is returned untouched with zero writes; when
the gate reports invalid and the write succeeds, the file is written
exactly once, with the captured state. -/
theorem C7_hit_no_write_miss_one_write (now : ℚ) (file : CacheFile)
    (ctx : BrowserContext) (w : Except String Unit) :
    (isAuthStateValid now file = true →
       authenticateSetup now file ctx w = .ok (file, 0)) ∧
    (isAuthStateValid now file = false → w = .ok () →
       authenticateSetup now file ctx w = .ok ((capture ctx).toFile, 1)) := by
  constructor
  · intro h
    unfold authenticateSetup
    rw [if_pos h]
  · intro h hw
    unfold authenticateSetup
    rw [if_neg (by simp [h]), hw]

/-- Witness for C7_hit_no_write_miss_one_write: a valid cached file is
left as is with zero writes; an absent file leads to exactly one write
of the captured state. -/
theorem C7_hit_no_write_miss_one_write_witness :
    authenticateSetup 3 (mkState [some 10]).toFile ⟨[mkCookie none], []⟩ (.ok ()) =
        .ok ((mkState [some 10]).toFile, 0) ∧
    authenticateSetup 3 .absent ⟨[mkCookie none], []⟩ (.ok ()) =
        .ok ((capture ⟨[mkCookie none], []⟩).toFile, 1) :=
  ⟨(C7_hit_no_write_miss_one_write 3 (mkState [some 10]).toFile
      ⟨[mkCookie none], []⟩ (.ok ())).1 (by decide),
   (C7_hit_no_write_miss_one_write 3 .absent
      ⟨[mkCookie none], []⟩ (.ok ())).2 rfl rfl⟩

/-- C8: when the gate reports invalid and the `storageState` write
fails, the failure propagates out of the bootstrap step — it is not
swallowed into a non-error result. -/
theorem C8_write_failure_propagates (now : ℚ) (file : CacheFile)
    (ctx : BrowserContext) (msg : String)
    (h : isAuthStateValid now file = false) :
    authenticateSetup now file ctx (.error msg) = .error msg := by
  unfold authenticateSetup
  rw [if_neg (by simp [h])]

/-- Witness for C8_write_failure_propagates: a cold cache and a denied
write. -/
theorem C8_write_failure_propagates_witness :
    authenticateSetup 3 .absent ⟨[mkCookie none], []⟩
        (.error "EACCES: permission denied") = .error "EACCES: permission denied" :=
  C8_write_failure_propagates 3 .absent ⟨[mkCookie none], []⟩
    "EACCES: permission denied" rfl

/-- C10: the code's no-fixed-expiry sentinel is every `expires ≤ 0`: a
parsed non-empty state is judged invalid only when some cookie has a
**positive** `expires` strictly in the past, and a state whose cookies
all have `expires ≤ 0` (e.g. exactly `0`, epoch 1970) is judged valid
at every check instant. -/
theorem C10_nonpositive_expiry_never_invalidates (now : ℚ) (s : SessionState)
    (h : s.cookies ≠ []) :
    (isAuthStateValid now s.toFile = false →
       ∃ c ∈ s.cookies, ∃ e : ℚ, c.expires = some e ∧ 0 < e ∧ e < now) ∧
    ((∀ c ∈ s.cookies, ∀ e : ℚ, c.expires = some e → e ≤ 0) →
       isAuthStateValid now s.toFile = true) := by
  constructor
  · intro hf
    by_contra hno
    push_neg at hno
    have ht : isAuthStateValid now s.toFile = true := by
      rw [isAuthStateValid_toFile, isValidState_true_iff]
      refine ⟨h, fun c hc e he hpos => ?_⟩
      exact hno c hc e he hpos
    rw [hf] at ht
    exact Bool.false_ne_true ht
  · intro hnp
    rw [isAuthStateValid_toFile, isValidState_true_iff]
    exact ⟨h, fun c hc e he hpos => absurd hpos (not_lt.2 (hnp c hc e he))⟩

/-- Witness for C10_nonpositive_expiry_never_invalidates: a state with
one cookie at `expires = 0` and one with the field absent is valid at
check instant `5`. -/
theorem C10_nonpositive_expiry_never_invalidates_witness :
    isAuthStateValid 5 (mkState [some 0, none]).toFile = true :=
  (C10_nonpositive_expiry_never_invalidates 5 (mkState [some 0, none]) (by decide)).2
    (by
      intro c hc e he
      simp only [mkState, mkCookie, List.map_cons, List.map_nil, List.mem_cons,
        List.not_mem_nil, or_false] at hc
      rcases hc with h1 | h1 <;> subst h1 <;> simp_all)
